import Mathlib

/-!
Verification of the Figma-layout → design-system mapping engine
(`src/utils.py`, `src/tools/map_components.py`, `src/tools/analyze_layout.py`).

The Python functions are shallowly embedded: dictionaries become structures
holding exactly the fields the functions read, floats become rationals
(every constant the code manipulates is exact), and Python string
operations (`in`, `.lower()`, `.split()`) are modelled over `List Char`.
-/

namespace DesignAssistant

/-! ### Python string primitives -/

/-- `needle` is a prefix of `hay` (over character lists). -/
def isPrefixL : List Char → List Char → Bool
  | [], _ => true
  | _ :: _, [] => false
  | a :: as, b :: bs => a == b && isPrefixL as bs

/-- `needle` occurs as a contiguous substring of `hay`; models Python `needle in hay`. -/
def isSubL (needle : List Char) : List Char → Bool
  | [] => isPrefixL needle []
  | c :: rest => isPrefixL needle (c :: rest) || isSubL needle rest

/-- Python's `needle in hay` on strings. -/
def pyIn (needle hay : String) : Bool := isSubL needle.data hay.data

/-- Python's `str.lower()`.  Python also case-folds non-ASCII letters, but no
letter's lowercase form ever contains an ASCII uppercase letter, which is the
only fact the proofs below rely on; over the basic-latin range the two agree
exactly (`Char.toLower` maps `A`–`Z` to `a`–`z` and is the identity elsewhere). -/
def pyLower (s : String) : String := ⟨s.data.map Char.toLower⟩

/-- Characters Python's no-argument `str.split()` treats as whitespace (ASCII range). -/
def pyIsSpace (c : Char) : Bool :=
  c == ' ' || c == '\t' || c == '\n' || c == '\r' || c == '\x0b' || c == '\x0c'

/-- Helper for `pySplit`: accumulates the current word (reversed). -/
def pySplitAux : List Char → List Char → List String
  | [], cur => if cur.isEmpty then [] else [⟨cur.reverse⟩]
  | c :: cs, cur =>
    if pyIsSpace c then
      if cur.isEmpty then pySplitAux cs [] else (⟨cur.reverse⟩ : String) :: pySplitAux cs []
    else pySplitAux cs (c :: cur)

/-- Python's no-argument `str.split()`: split on whitespace runs, dropping empties. -/
def pySplit (s : String) : List String := pySplitAux s.data []

/-! ### Similarity scorer — `utils.calculate_similarity_score` -/

/-- A layout element as built by `_extract_layout_elements` / consumed by the
scorer and mapper: the dictionary fields those functions read.
`has_instanceOf` records whether the raw dictionary has an `"instanceOf"` key
(the scorer probes `"instanceOf" in figma_element`; elements built by
`_extract_layout_elements` never carry that key).  Instance-property values
are modelled as strings. -/
structure FigmaElement where
  id : String := ""
  name : String := ""
  type : String := ""
  path : String := ""
  is_instance : Bool := false
  is_text : Bool := false
  is_frame : Bool := false
  is_group : Bool := false
  is_component : Bool := false
  has_instanceOf : Bool := false
  text_content : String := ""
  component_properties : List (String × String) := []
deriving DecidableEq, Inhabited

/-- A declared component property (`extract_component_properties` entry). -/
structure PropDef where
  name : String := ""
  type : String := ""
  required : Bool := false
  default_value : Option String := none
deriving DecidableEq, Inhabited

/-- A design-system component as consumed by the scorer, mapper and prop
binder: the dictionary fields those functions read.  `has_variants` records
the `"has_variants"` key the scorer probes with default `False`. -/
structure DSComponent where
  id : String := ""
  name : String := ""
  description : String := ""
  type : String := ""
  props : List PropDef := []
  variants : List String := []
  has_variants : Bool := false
deriving DecidableEq, Inhabited

/-- The `type_mapping` table of `calculate_similarity_score` (utils.py:147-153),
verbatim: note the capitalized keyword strings. -/
def type_mapping : List (String × List String) :=
  [("TEXT", ["Input", "TextArea", "TextField"]),
   ("RECTANGLE", ["Button", "Card", "Container"]),
   ("FRAME", ["Modal", "Dialog", "Card"]),
   ("INSTANCE", ["Component"]),
   ("COMPONENT", ["Component"])]

/-- `utils.calculate_similarity_score` (utils.py:127-168).  The loop over
`type_mapping` with `break` adds 40 at most once, hence the `List.any`. -/
def calculate_similarity_score (figma_element : FigmaElement)
    (design_system_component : DSComponent) : ℚ :=
  let figma_name := pyLower figma_element.name
  let component_name := pyLower design_system_component.name
  let score : ℚ := 0
  let score :=
    if pyIn component_name figma_name || pyIn figma_name component_name then score + 30
    else if (pySplit component_name).any (fun word => pyIn word figma_name) then score + 20
    else score
  let score :=
    if type_mapping.any (fun row =>
        figma_element.type == row.1 && row.2.any (fun ct => pyIn ct component_name)) then
      score + 40
    else score
  let score :=
    if figma_element.is_instance && figma_element.has_instanceOf then score + 10 else score
  let score := if design_system_component.has_variants then score + 5 else score
  min score 100

/-! ### Python string-keyed dictionaries (insertion-ordered, unique keys) -/

/-- `d[k] = v` on a Python dict: overwrite in place if the key exists
(keys are unique, so replacing the first hit is exact), else append. -/
def dictSet : List (String × String) → String → String → List (String × String)
  | [], k, v => [(k, v)]
  | kv :: rest, k, v =>
    if kv.1 == k then (k, v) :: rest else kv :: dictSet rest k v

/-- `d.get(k)` on a Python dict. -/
def dictGet (m : List (String × String)) (k : String) : Option String :=
  (m.find? (fun kv => kv.1 == k)).map (·.2)

/-- `d.update(entries)` on a Python dict. -/
def dictUpdate (m : List (String × String)) (entries : List (String × String)) :
    List (String × String) :=
  entries.foldl (fun acc kv => dictSet acc kv.1 kv.2) m

/-! ### Prop binding — `map_components._determine_props_mapping` -/

/-- The `text_prop_names` list (map_components.py:448), verbatim. -/
def text_prop_names : List String :=
  ["value", "text", "children", "label", "placeholder", "title"]

/-- The "Для кнопок и подобных элементов" block of `_determine_props_mapping`
(map_components.py:460-473): variant and size heuristics, applied when the
lowercased element name contains a button keyword. -/
def _apply_button_props (element_name : String) (pm : List (String × String)) :
    List (String × String) :=
  if ["button", "btn", "submit", "confirm"].any (fun kw => pyIn kw element_name) then
    let pm :=
      if pyIn "primary" element_name then dictSet pm "variant" "primary"
      else if pyIn "secondary" element_name then dictSet pm "variant" "secondary"
      else if pyIn "danger" element_name || pyIn "delete" element_name then
        dictSet pm "variant" "danger"
      else pm
    if pyIn "large" element_name || pyIn "big" element_name then dictSet pm "size" "large"
    else if pyIn "small" element_name || pyIn "sm" element_name then dictSet pm "size" "small"
    else pm
  else pm

/-- The "Для полей ввода" block of `_determine_props_mapping`
(map_components.py:476-486): type/label/placeholder heuristics, applied when
the lowercased element name contains an input keyword. -/
def _apply_input_props (element_name : String) (pm : List (String × String)) :
    List (String × String) :=
  if ["input", "field", "textfield"].any (fun kw => pyIn kw element_name) then
    if pyIn "email" element_name then
      dictSet (dictSet (dictSet pm "type" "email") "label" "Email")
        "placeholder" "Enter your email"
    else if pyIn "password" element_name then
      dictSet (dictSet (dictSet pm "type" "password") "label" "Password")
        "placeholder" "Enter your password"
    else if pyIn "search" element_name then dictSet pm "placeholder" "Search..."
    else pm
  else pm

/-- `map_components._determine_props_mapping` (map_components.py:432-488).
The text loop binds the element text to the first component-declared prop
(in declaration order) whose lowercased name is in `text_prop_names`
(`for ... break ... else`), hence the `List.find?`. -/
def _determine_props_mapping (element : FigmaElement) (component : DSComponent) :
    List (String × String) :=
  let props_mapping : List (String × String) := []
  let props_mapping :=
    if element.is_instance ∧ element.component_properties ≠ [] then
      dictUpdate props_mapping element.component_properties
    else props_mapping
  let props_mapping :=
    if element.is_text ∧ element.text_content ≠ "" then
      match component.props.find? (fun p => text_prop_names.contains (pyLower p.name)) with
      | some p => dictSet props_mapping p.name element.text_content
      | none => dictSet props_mapping "children" element.text_content
    else props_mapping
  let element_name := pyLower element.name
  let props_mapping := _apply_button_props element_name props_mapping
  _apply_input_props element_name props_mapping

/-- The key the text-binding loop of `_determine_props_mapping` selects: the
name of the first component-declared prop in `text_prop_names`, or the
synthetic `"children"` key when the component declares none. -/
def textBindKey (component : DSComponent) : String :=
  match component.props.find? (fun p => text_prop_names.contains (pyLower p.name)) with
  | some p => p.name
  | none => "children"

/-! ### Mapper — `map_components._map_elements_to_components` and helpers -/

/-- The Kontur-UI import-path table of `_determine_import_path`
(map_components.py:496-547), in dict-literal order. -/
def import_paths : List (String × String) :=
  [("button", "@skbkontur/react-ui/Button"),
   ("input", "@skbkontur/react-ui/Input"),
   ("textarea", "@skbkontur/react-ui/Textarea"),
   ("select", "@skbkontur/react-ui/Select"),
   ("checkbox", "@skbkontur/react-ui/Checkbox"),
   ("radio", "@skbkontur/react-ui/Radio"),
   ("switch", "@skbkontur/react-ui/Switch"),
   ("modal", "@skbkontur/react-ui/Modal"),
   ("dialog", "@skbkontur/react-ui/Dialog"),
   ("card", "@skbkontur/react-ui/Card"),
   ("table", "@skbkontur/react-ui/Table"),
   ("dropdown", "@skbkontur/react-ui/Dropdown"),
   ("tooltip", "@skbkontur/react-ui/Tooltip"),
   ("popup", "@skbkontur/react-ui/Popup"),
   ("tabs", "@skbkontur/react-ui/Tabs"),
   ("accordion", "@skbkontur/react-ui/Accordion"),
   ("badge", "@skbkontur/react-ui/Badge"),
   ("avatar", "@skbkontur/react-ui/Avatar"),
   ("icon", "@skbkontur/react-ui/Icon"),
   ("spinner", "@skbkontur/react-ui/Spinner"),
   ("progress", "@skbkontur/react-ui/Progress"),
   ("skeleton", "@skbkontur/react-ui/Skeleton"),
   ("alert", "@skbkontur/react-ui/Alert"),
   ("notification", "@skbkontur/react-ui/Notification"),
   ("breadcrumbs", "@skbkontur/react-ui/Breadcrumbs"),
   ("pagination", "@skbkontur/react-ui/Pagination"),
   ("stepper", "@skbkontur/react-ui/Stepper"),
   ("rating", "@skbkontur/react-ui/Rating"),
   ("slider", "@skbkontur/react-ui/Slider"),
   ("datepicker", "@skbkontur/react-ui/DatePicker"),
   ("timepicker", "@skbkontur/react-ui/TimePicker"),
   ("calendar", "@skbkontur/react-ui/Calendar"),
   ("tree", "@skbkontur/react-ui/Tree"),
   ("menu", "@skbkontur/react-ui/Menu"),
   ("navbar", "@skbkontur/react-ui/Navbar"),
   ("sidebar", "@skbkontur/react-ui/Sidebar"),
   ("footer", "@skbkontur/react-ui/Footer"),
   ("layout", "@skbkontur/react-ui/Layout"),
   ("grid", "@skbkontur/react-ui/Grid"),
   ("flex", "@skbkontur/react-ui/Flex"),
   ("stack", "@skbkontur/react-ui/Stack"),
   ("container", "@skbkontur/react-ui/Container"),
   ("paper", "@skbkontur/react-ui/Paper"),
   ("box", "@skbkontur/react-ui/Box"),
   ("form", "@skbkontur/react-ui/Form"),
   ("formgroup", "@skbkontur/react-ui/FormGroup"),
   ("formcontrol", "@skbkontur/react-ui/FormControl"),
   ("formlabel", "@skbkontur/react-ui/FormLabel"),
   ("formhelpertext", "@skbkontur/react-ui/FormHelperText"),
   ("formerrormessage", "@skbkontur/react-ui/FormErrorMessage")]

/-- `map_components._determine_import_path` (map_components.py:491-556):
first table entry matching the lowercased component name (either direction of
containment) wins; otherwise a generic path is generated. -/
def _determine_import_path (component : DSComponent) : String :=
  let component_lower := pyLower component.name
  match import_paths.find?
      (fun kv => pyIn kv.1 component_lower || pyIn component_lower kv.1) with
  | some kv => kv.2
  | none => "@skbkontur/react-ui/" ++ component.name

/-- `map_components._generate_component_example` (map_components.py:559-581),
for string-valued prop bindings (the `isinstance(value, str)` branch). -/
def _generate_component_example (component : DSComponent)
    (props_mapping : List (String × String)) : String :=
  let component_name := component.name
  let props_items := props_mapping.map (fun kv => kv.1 ++ "=\"" ++ kv.2 ++ "\"")
  let props_str := if props_items.isEmpty then "" else " " ++ String.intercalate " " props_items
  "<" ++ component_name ++ props_str ++ " />"

/-- `map_components._generate_mapping_notes` (map_components.py:584-612).
Python renders the prop-name differences through `set`, whose iteration order
is unspecified; this model keeps first-occurrence order. -/
def _generate_mapping_notes (element : FigmaElement) (component : DSComponent)
    (props_mapping : List (String × String)) : List String :=
  let notes : List String :=
    if element.is_instance then ["Element is an instance of a Figma component"] else []
  let mapped_props := (props_mapping.map Prod.fst).dedup
  let component_prop_names := component.props.map (·.name)
  let unsupported_props := mapped_props.filter (fun k => !(component_prop_names.contains k))
  let notes := notes ++
    (if !unsupported_props.isEmpty then
      ["Note: Some mapped props may not be supported by component: " ++
        String.intercalate ", " unsupported_props]
     else [])
  let required_props := (component.props.filter (·.required)).map (·.name)
  let missing_required := required_props.filter (fun k => !(mapped_props.contains k))
  notes ++
    (if !missing_required.isEmpty then
      ["Warning: Missing required props: " ++ String.intercalate ", " missing_required]
     else [])

/-- Python `float` repr, for values with a short terminating decimal
expansion (all constants in this code base are such values): digit expansion
of the fractional part, `".0"` for integral values. -/
def decDigits : ℕ → ℚ → String
  | 0, _ => ""
  | fuel + 1, q =>
    if q = 0 then ""
    else
      let q10 := q * 10
      let d := ⌊q10⌋
      toString d ++ decDigits fuel (q10 - (d : ℚ))

/-- Python `f"{x}"` on a float with a short terminating decimal expansion. -/
def pyFloatRepr (q : ℚ) : String :=
  let sign := if q < 0 then "-" else ""
  let ip := ⌊|q|⌋
  let fp := |q| - (ip : ℚ)
  if fp = 0 then sign ++ toString ip ++ ".0"
  else sign ++ toString ip ++ "." ++ decDigits 30 fp

/-- `map_components._get_suggestion_reason` (map_components.py:644-671). -/
def _get_suggestion_reason (element : FigmaElement) (component : DSComponent)
    (score : ℚ) : String :=
  let element_name := pyLower element.name
  let component_name := pyLower component.name
  let reasons : List String :=
    if pyIn component_name element_name || pyIn element_name component_name then
      ["name similarity"]
    else []
  let reasons := reasons ++
    (if element.type = "TEXT" ∧
        (["input", "textarea", "textfield"].any fun kw => pyIn kw component_name) then
      ["text element matches input component"]
     else if (element.type = "RECTANGLE" ∨ element.type = "FRAME") ∧
        pyIn "button" component_name then
      ["rectangular element matches button component"]
     else if element.type = "INSTANCE" then ["instance of a Figma component"]
     else [])
  let reasons :=
    if reasons.isEmpty then ["partial match (score: " ++ pyFloatRepr score ++ ")"] else reasons
  String.intercalate ", " reasons

/-- An entry of an unmapped element's `suggestions` list (`example_code`
models the dictionary's `"example"` key; `example` is a Lean keyword). -/
structure Suggestion where
  component : String
  confidence : ℚ
  reason : String
  example_code : String
deriving DecidableEq, Inhabited

/-- Stable descending insertion (by score): a new pair goes after all already
placed pairs with a greater-or-equal score, matching Python's stable
`sort(reverse=True, key=lambda x: x[0])`. -/
def insertDesc (x : ℚ × DSComponent) : List (ℚ × DSComponent) → List (ℚ × DSComponent)
  | [] => [x]
  | y :: ys => if x.1 > y.1 then x :: y :: ys else y :: insertDesc x ys

/-- `map_components._generate_element_suggestions` (map_components.py:615-641):
score every component, sort descending (stable), keep the top 3, suggest those
scoring above 30. -/
def _generate_element_suggestions (element : FigmaElement)
    (components : List DSComponent) : List Suggestion :=
  let scored_components :=
    components.map (fun c => (calculate_similarity_score element c, c))
  let sorted := scored_components.foldl (fun acc x => insertDesc x acc) []
  let top_components := sorted.take 3
  top_components.filterMap (fun sc =>
    if sc.1 > 30 then
      some { component := sc.2.name, confidence := sc.1,
             reason := _get_suggestion_reason element sc.2 sc.1,
             example_code := _generate_component_example sc.2 [] }
    else none)

/-- The `matched_component` summary dictionary built by `_create_mapping`. -/
structure MatchedComponent where
  name : String
  type : String
  description : String
  import_path : String
  props_count : ℕ
  has_variants : Bool
deriving DecidableEq, Inhabited

/-- A produced mapping (`_create_mapping` result).  The code stores a
projection of the element dictionary (id, name, type, path, flags, optional
text/instance data) under `figma_element`; the model keeps the element record
itself, which carries exactly those fields. -/
structure Mapping where
  figma_element : FigmaElement
  matched_component : MatchedComponent
  confidence : ℚ
  props_mapping : List (String × String)
  example_code : String
  mapping_notes : List String
deriving DecidableEq, Inhabited

/-- An `unmapped_elements` entry of `_map_elements_to_components`. -/
structure UnmappedElement where
  element : FigmaElement
  best_score : ℚ
  reason : String
  suggestions : List Suggestion
deriving DecidableEq, Inhabited

/-- `map_components._create_mapping` (map_components.py:385-429). -/
def _create_mapping (element : FigmaElement) (component : DSComponent)
    (confidence : ℚ) : Mapping :=
  let props_mapping := _determine_props_mapping element component
  { figma_element := element,
    matched_component :=
      { name := component.name, type := component.type,
        description := component.description,
        import_path := _determine_import_path component,
        props_count := component.props.length,
        has_variants := decide (0 < component.variants.length) },
    confidence := confidence,
    props_mapping := props_mapping,
    example_code := _generate_component_example component props_mapping,
    mapping_notes := _generate_mapping_notes element component props_mapping }

/-- The mappable-element classification of `_map_elements_to_components`
(map_components.py:330-334). -/
def isMappable (e : FigmaElement) : Bool :=
  e.is_instance || e.is_text || e.is_frame ||
    (["RECTANGLE", "ELLIPSE", "VECTOR"].contains e.type)

/-- The best-match scan of `_map_elements_to_components` (map_components.py:339-349):
fold over the catalog keeping the first maximal component whose score is both
strictly better than the best so far and at least `min_confidence`. -/
def _best_match (components : List DSComponent) (min_confidence : ℚ)
    (element : FigmaElement) : Option DSComponent × ℚ :=
  components.foldl
    (fun acc component =>
      let score := calculate_similarity_score element component
      if acc.2 < score ∧ min_confidence ≤ score then (some component, score) else acc)
    (none, 0)

/-- One iteration of the mapping loop (map_components.py:338-362): either a
`Mapping` or an `UnmappedElement` for the given mappable element. -/
def _process_element (components : List DSComponent) (min_confidence : ℚ)
    (element : FigmaElement) : Mapping ⊕ UnmappedElement :=
  let best := _best_match components min_confidence element
  match best.1 with
  | some component =>
    if min_confidence ≤ best.2 then
      Sum.inl (_create_mapping element component best.2)
    else
      Sum.inr { element := element, best_score := best.2,
                reason := "No component meets minimum confidence",
                suggestions := _generate_element_suggestions element components }
  | none =>
    Sum.inr { element := element, best_score := 0,
              reason := "No suitable component found",
              suggestions := _generate_element_suggestions element components }

/-- Projection used to collect the `mappings` list. -/
def leftMapping : Mapping ⊕ UnmappedElement → Option Mapping
  | Sum.inl m => some m
  | Sum.inr _ => none

/-- Projection used to collect the `unmapped_elements` list. -/
def rightUnmapped : Mapping ⊕ UnmappedElement → Option UnmappedElement
  | Sum.inl _ => none
  | Sum.inr u => some u

/-- `component_mappings` grouping (map_components.py:365-370): mappings
grouped by matched-component name, first-seen key order. -/
def groupByComponent (mappings : List Mapping) : List (String × List Mapping) :=
  mappings.foldl
    (fun acc m =>
      let name := m.matched_component.name
      if acc.any (fun g => g.1 == name) then
        acc.map (fun g => if g.1 == name then (g.1, g.2 ++ [m]) else g)
      else acc ++ [(name, [m])])
    []

/-- The report returned by `_map_elements_to_components`.  The two
display-only summary strings (`mapping_rate`, rendered with float division
and `%.1f` formatting, and the float `average_confidence`) are presentation
fields not modelled here. -/
structure MapReport where
  mappings : List Mapping
  unmapped_elements : List UnmappedElement
  component_mappings : List (String × List Mapping)
  successfully_mapped : ℕ
  total_mappable_elements : ℕ
deriving DecidableEq, Inhabited

/-- `map_components._map_elements_to_components` (map_components.py:319-382). -/
def _map_elements_to_components (layout_elements : List FigmaElement)
    (design_system_components : List DSComponent) (min_confidence : ℚ) : MapReport :=
  let mappable_elements := layout_elements.filter isMappable
  let results := mappable_elements.map (_process_element design_system_components min_confidence)
  let mappings := results.filterMap leftMapping
  let unmapped_elements := results.filterMap rightUnmapped
  { mappings := mappings,
    unmapped_elements := unmapped_elements,
    component_mappings := groupByComponent mappings,
    successfully_mapped := mappings.length,
    total_mappable_elements := mappable_elements.length }

/-! ### Pipeline validation — `map_components.map_layout_to_components` -/

/-- `validators.validate_figma_file_key` as a predicate: non-empty and
matching `^[a-zA-Z0-9_-]{10,40}$`. -/
def validate_figma_file_key (file_key : String) : Bool :=
  !file_key.isEmpty && decide (10 ≤ file_key.length) && decide (file_key.length ≤ 40) &&
    file_key.data.all (fun c => c.isAlphanum || c == '_' || c == '-')

/-- A raised Python exception, as the tool's failure result. -/
inductive PyError where
  | valueError (msg : String)
  | connectionError (msg : String)
deriving DecidableEq

/-- The validation-and-mapping skeleton of `map_layout_to_components`
(map_components.py:104-138): file-key validation, then the
`0 <= min_confidence <= 100` range check (map_components.py:107-108), and
only then the extraction/mapping work.  Fetching and deserialization are
external collaborators, so the already-extracted element list and component
catalog stand in for the two Figma files. -/
def map_layout_to_components (layout_file_key design_system_file_key : String)
    (min_confidence : ℚ) (layout_elements : List FigmaElement)
    (design_system_components : List DSComponent) : Except PyError MapReport :=
  if !validate_figma_file_key layout_file_key then
    Except.error (PyError.valueError "invalid Figma file key")
  else if !validate_figma_file_key design_system_file_key then
    Except.error (PyError.valueError "invalid Figma file key")
  else if ¬(0 ≤ min_confidence ∧ min_confidence ≤ 100) then
    Except.error (PyError.valueError "min_confidence must be in range 0-100")
  else
    Except.ok (_map_elements_to_components layout_elements design_system_components
      min_confidence)

/-! ### Spacing pattern — `analyze_layout._analyze_spacing_pattern` -/

/-- An `absoluteBoundingBox` dictionary; fields are read with
`bbox.get(key, 0)`, hence the options. -/
structure BBox where
  x : Option ℚ := none
  y : Option ℚ := none
  width : Option ℚ := none
  height : Option ℚ := none
deriving DecidableEq, Inhabited

/-- A child node as read by the spacing analysis: only its
`absoluteBoundingBox` is consulted (`none` models a missing or empty
bounding-box dictionary, both falsy in `if bbox:`). -/
structure ChildNode where
  absoluteBoundingBox : Option BBox := none
deriving DecidableEq, Inhabited

/-- The per-child position record built at analyze_layout.py:817-826. -/
structure Position where
  x : ℚ
  y : ℚ
  width : ℚ
  height : ℚ
deriving DecidableEq, Inhabited

/-- Ascending insertion preserving existing order of equals; `foldr` over the
input gives Python's stable `list.sort()` on numbers. -/
def insertAsc (v : ℚ) : List ℚ → List ℚ
  | [] => [v]
  | y :: ys => if v ≤ y then v :: y :: ys else y :: insertAsc v ys

/-- Python's `list.sort()` on a list of numbers, ascending. -/
def sortAsc (l : List ℚ) : List ℚ := l.foldr insertAsc []

/-- Differences of consecutive list entries
(`[xs[i+1] - xs[i] for i in range(len(xs)-1)]`). -/
def pairDiffs : List ℚ → List ℚ
  | [] => []
  | [_] => []
  | a :: b :: rest => (b - a) :: pairDiffs (b :: rest)

/-- Python `round()` / `%.0f`-formatting rounding: round half to even. -/
def roundHalfEven (q : ℚ) : ℤ :=
  let f := ⌊q⌋
  let r := q - (f : ℚ)
  if r < 1 / 2 then f
  else if 1 / 2 < r then f + 1
  else if Even f then f else f + 1

/-- One `if len(..) > 1: diffs = ..; if all(abs(d - diffs[0]) < 1 ..): return
f"<axis>_equal_spacing_{diffs[0]:.0f}px"` block of `_analyze_spacing_pattern`
(analyze_layout.py:836-839 and 846-849). -/
def equalSpacingTag (axis : String) (coords : List ℚ) : Option String :=
  if 1 < coords.length then
    match pairDiffs coords with
    | [] => none
    | d0 :: rest =>
      if (d0 :: rest).all (fun d => |d - d0| < 1) then
        some (axis ++ "_equal_spacing_" ++ toString (roundHalfEven d0) ++ "px")
      else none
  else none

/-- `analyze_layout._analyze_spacing_pattern` (analyze_layout.py:811-851).
Note the gaps are differences of consecutive *sorted x coordinates* — child
widths play no part. -/
def _analyze_spacing_pattern (children : List ChildNode) : Option String :=
  if children.length < 2 then none
  else
    let positions := children.filterMap (fun child =>
      child.absoluteBoundingBox.map (fun bbox =>
        ({ x := bbox.x.getD 0, y := bbox.y.getD 0,
           width := bbox.width.getD 0, height := bbox.height.getD 0 } : Position)))
    if positions.length < 2 then none
    else
      let x_positions := sortAsc (positions.map (·.x))
      match equalSpacingTag "horizontal" x_positions with
      | some pat => some pat
      | none =>
        let y_positions := sortAsc (positions.map (·.y))
        match equalSpacingTag "vertical" y_positions with
        | some pat => some pat
        | none => some "irregular_spacing"

/-! ### Color formatting — `analyze_layout._format_color` -/

/-- A paint color dictionary `{r, g, b, a}`; fields are read with
`color.get("r", 0)` (alpha defaults to 1), hence the options. -/
structure FigmaColor where
  r : Option ℚ := none
  g : Option ℚ := none
  b : Option ℚ := none
  a : Option ℚ := none
deriving DecidableEq, Inhabited

/-- Python `int()` on a float: truncation toward zero. -/
def pyTrunc (q : ℚ) : ℤ := if q < 0 then -⌊-q⌋ else ⌊q⌋

/-- `analyze_layout._format_color` (analyze_layout.py:643-653).  The channels
are scaled by 255 and truncated with `int(...)`; the alpha is rendered with
Python's default float formatting. -/
def _format_color (color : FigmaColor) : String :=
  let r := pyTrunc ((color.r.getD 0) * 255)
  let g := pyTrunc ((color.g.getD 0) * 255)
  let b := pyTrunc ((color.b.getD 0) * 255)
  let a := color.a.getD 1
  if a = 1 then
    "rgb(" ++ toString r ++ ", " ++ toString g ++ ", " ++ toString b ++ ")"
  else
    "rgba(" ++ toString r ++ ", " ++ toString g ++ ", " ++ toString b ++ ", " ++
      pyFloatRepr a ++ ")"

/-- The color canonicalization as the specification words it: channels
computed with `round(channel*255)` rather than the code's `int(channel*255)`.
Stated only to be compared against `_format_color`. -/
def formatColorSpecRound (color : FigmaColor) : String :=
  let r := roundHalfEven ((color.r.getD 0) * 255)
  let g := roundHalfEven ((color.g.getD 0) * 255)
  let b := roundHalfEven ((color.b.getD 0) * 255)
  let a := color.a.getD 1
  if a = 1 then
    "rgb(" ++ toString r ++ ", " ++ toString g ++ ", " ++ toString b ++ ")"
  else
    "rgba(" ++ toString r ++ ", " ++ toString g ++ ", " ++ toString b ++ ", " ++
      pyFloatRepr a ++ ")"

/-- The color canonicalization with the claim's formula amended to the code's
truncation: channels computed as `int(channel*255)` (truncation toward zero),
`rgb(...)` exactly when alpha = 1.  Stated only to be compared against
`_format_color`. -/
def formatColorSpecTrunc (color : FigmaColor) : String :=
  let a := color.a.getD 1
  if a = 1 then
    "rgb(" ++ toString (pyTrunc ((color.r.getD 0) * 255)) ++ ", " ++
      toString (pyTrunc ((color.g.getD 0) * 255)) ++ ", " ++
      toString (pyTrunc ((color.b.getD 0) * 255)) ++ ")"
  else
    "rgba(" ++ toString (pyTrunc ((color.r.getD 0) * 255)) ++ ", " ++
      toString (pyTrunc ((color.g.getD 0) * 255)) ++ ", " ++
      toString (pyTrunc ((color.b.getD 0) * 255)) ++ ", " ++ pyFloatRepr a ++ ")"

end DesignAssistant

namespace DesignAssistant

/-! ### Theorems: character-level facts used by the scorer proofs -/

theorem char_toNat_ofNat {n : Nat} (h : n.isValidChar) : (Char.ofNat n).toNat = n := by
  simp [Char.ofNat, Char.ofNatAux, Char.toNat, dif_pos h, UInt32.toNat, BitVec.toNat_ofNatLt]

theorem toLower_ne_upper (c u : Char) (h1 : 65 ≤ u.toNat) (h2 : u.toNat ≤ 90) :
    Char.toLower c ≠ u := by
  unfold Char.toLower
  simp only []
  split
  · rename_i h
    intro heq
    have hv : (c.toNat + 32).isValidChar := by
      left
      omega
    have := char_toNat_ofNat hv
    rw [heq] at this
    omega
  · rename_i h
    intro heq
    subst heq
    omega

theorem isPrefixL_mem {n h : List Char} (hp : isPrefixL n h = true) {c : Char} (hc : c ∈ n) :
    c ∈ h := by
  induction n generalizing h with
  | nil => cases hc
  | cons a as ih =>
    cases h with
    | nil => simp [isPrefixL] at hp
    | cons b bs =>
      simp only [isPrefixL, Bool.and_eq_true, beq_iff_eq] at hp
      rcases List.mem_cons.mp hc with hc | hc
      · rw [hc, hp.1]
        exact List.mem_cons_self b bs
      · exact List.mem_cons_of_mem b (ih hp.2 hc)

theorem isSubL_mem {n h : List Char} (hs : isSubL n h = true) {c : Char} (hc : c ∈ n) :
    c ∈ h := by
  induction h with
  | nil => exact isPrefixL_mem hs hc
  | cons b bs ih =>
    simp only [isSubL, Bool.or_eq_true] at hs
    rcases hs with hs | hs
    · exact isPrefixL_mem hs hc
    · exact List.mem_cons_of_mem b (ih hs)

theorem pyIn_lower_no_upper (kw s : String) (u : Char) (hu : u ∈ kw.data)
    (h1 : 65 ≤ u.toNat) (h2 : u.toNat ≤ 90) : pyIn kw (pyLower s) = false := by
  by_contra hne
  have hs : isSubL kw.data (pyLower s).data = true := by
    revert hne
    unfold pyIn
    cases isSubL kw.data (pyLower s).data <;> simp
  have hmem : u ∈ (pyLower s).data := isSubL_mem hs hu
  have : (pyLower s).data = s.data.map Char.toLower := rfl
  rw [this] at hmem
  rcases List.mem_map.mp hmem with ⟨c, _, hc⟩
  exact toLower_ne_upper c u h1 h2 hc

/-- The kind→category branch of the scorer can never fire: every keyword in
`type_mapping` contains an ASCII uppercase letter, while the component name
has been lowercased before the substring test. -/
theorem type_mapping_bonus_never (t : String) (s : String) :
    (type_mapping.any (fun row =>
      t == row.1 && row.2.any (fun ct => pyIn ct (pyLower s)))) = false := by
  have hi : pyIn "Input" (pyLower s) = false :=
    pyIn_lower_no_upper _ s 'I' (by decide) (by decide) (by decide)
  have hta : pyIn "TextArea" (pyLower s) = false :=
    pyIn_lower_no_upper _ s 'T' (by decide) (by decide) (by decide)
  have htf : pyIn "TextField" (pyLower s) = false :=
    pyIn_lower_no_upper _ s 'T' (by decide) (by decide) (by decide)
  have hb : pyIn "Button" (pyLower s) = false :=
    pyIn_lower_no_upper _ s 'B' (by decide) (by decide) (by decide)
  have hca : pyIn "Card" (pyLower s) = false :=
    pyIn_lower_no_upper _ s 'C' (by decide) (by decide) (by decide)
  have hco : pyIn "Container" (pyLower s) = false :=
    pyIn_lower_no_upper _ s 'C' (by decide) (by decide) (by decide)
  have hm : pyIn "Modal" (pyLower s) = false :=
    pyIn_lower_no_upper _ s 'M' (by decide) (by decide) (by decide)
  have hd : pyIn "Dialog" (pyLower s) = false :=
    pyIn_lower_no_upper _ s 'D' (by decide) (by decide) (by decide)
  have hcp : pyIn "Component" (pyLower s) = false :=
    pyIn_lower_no_upper _ s 'C' (by decide) (by decide) (by decide)
  simp [type_mapping, hi, hta, htf, hb, hca, hco, hm, hd, hcp]

/-- C3: the similarity score is bounded by 45 for every element/component pair:
the name bonus contributes at most 30, the kind→category +40 can never fire
(capitalized keywords are tested against the lowercased component name), and
the instance/variants bonuses contribute at most 10 + 5. -/
theorem similarity_score_le_45 (e : FigmaElement) (c : DSComponent) :
    calculate_similarity_score e c ≤ 45 := by
  simp only [calculate_similarity_score, type_mapping_bonus_never, Bool.false_eq_true,
    if_false]
  refine le_trans (min_le_left _ _) ?_
  split_ifs <;> norm_num

/-- C1: an element of kind `RECTANGLE` and a component named `"Button"`, whose
name contains the category keyword `button` case-insensitively, nevertheless
receive no +40 bonus — the total score is 0 because the code compares the
capitalized keyword `"Button"` against the lowercased component name. -/
theorem rectangle_button_scores_zero :
    calculate_similarity_score { name := "Submit", type := "RECTANGLE" }
        { name := "Button" } = 0
      ∧ pyIn (pyLower "Button") (pyLower "Button") = true := by
  constructor
  · decide
  · decide

/-! ### Dictionary lemmas -/

theorem dictGet_dictSet_self (m : List (String × String)) (k v : String) :
    dictGet (dictSet m k v) k = some v := by
  induction m with
  | nil => simp [dictSet, dictGet]
  | cons kv rest ih =>
    by_cases h : kv.1 = k
    · simp [dictSet, dictGet, h]
    · simp only [dictSet, beq_iff_eq, if_neg h]
      simpa [dictGet, List.find?_cons_of_neg, h] using ih

theorem dictGet_dictSet_ne {k k' : String} (h : k' ≠ k) (m : List (String × String))
    (v : String) : dictGet (dictSet m k v) k' = dictGet m k' := by
  induction m with
  | nil => simp [dictSet, dictGet, Ne.symm h]
  | cons kv rest ih =>
    by_cases hk : kv.1 = k
    · simp [dictSet, dictGet, hk, Ne.symm h]
    · by_cases hk' : kv.1 = k'
      · simp [dictSet, dictGet, hk, hk', h]
      · simp only [dictSet, beq_iff_eq, if_neg hk]
        simpa [dictGet, List.find?_cons_of_neg, hk'] using ih

theorem dictGet_dictUpdate_not_mem (entries : List (String × String))
    (m : List (String × String)) (k : String) (h : ∀ kv ∈ entries, kv.1 ≠ k) :
    dictGet (dictUpdate m entries) k = dictGet m k := by
  induction entries generalizing m with
  | nil => rfl
  | cons e rest ih =>
    have he : e.1 ≠ k := h e (List.mem_cons_self e rest)
    calc dictGet (dictUpdate (dictSet m e.1 e.2) rest) k
        = dictGet (dictSet m e.1 e.2) k :=
          ih (dictSet m e.1 e.2) (fun kv hkv => h kv (List.mem_cons_of_mem e hkv))
      _ = dictGet m k := dictGet_dictSet_ne (Ne.symm he) m e.2

theorem dictGet_dictUpdate_mem (entries : List (String × String))
    (m : List (String × String)) (k v : String)
    (hnd : (entries.map Prod.fst).Nodup) (hmem : (k, v) ∈ entries) :
    dictGet (dictUpdate m entries) k = some v := by
  induction entries generalizing m with
  | nil => cases hmem
  | cons e rest ih =>
    rw [List.map_cons, List.nodup_cons] at hnd
    rcases List.mem_cons.mp hmem with hmem | hmem
    · have he : e = (k, v) := hmem.symm
      subst he
      have hrest : ∀ kv ∈ rest, kv.1 ≠ k :=
        fun kv hkv heq => hnd.1 (List.mem_map.mpr ⟨kv, hkv, heq⟩)
      show dictGet (dictUpdate (dictSet m k v) rest) k = some v
      rw [dictGet_dictUpdate_not_mem rest _ k hrest]
      exact dictGet_dictSet_self m k v
    · exact ih (dictSet m e.1 e.2) hnd.2 hmem

/-! ### Prop-binding lemmas -/

theorem apply_button_props_get (element_name : String) (pm : List (String × String))
    {k : String} (hv : k ≠ "variant") (hs : k ≠ "size") :
    dictGet (_apply_button_props element_name pm) k = dictGet pm k := by
  unfold _apply_button_props
  split_ifs <;> simp only [dictGet_dictSet_ne hv, dictGet_dictSet_ne hs]

theorem apply_input_props_get (element_name : String) (pm : List (String × String))
    {k : String} (ht : k ≠ "type") (hl : k ≠ "label") (hp : k ≠ "placeholder") :
    dictGet (_apply_input_props element_name pm) k = dictGet pm k := by
  unfold _apply_input_props
  split_ifs <;>
    simp only [dictGet_dictSet_ne ht, dictGet_dictSet_ne hl, dictGet_dictSet_ne hp]

theorem apply_input_props_skip (element_name : String) (pm : List (String × String))
    (h : (["input", "field", "textfield"].any fun kw => pyIn kw element_name) = false) :
    _apply_input_props element_name pm = pm := by
  unfold _apply_input_props
  rw [if_neg (by simp [h])]

theorem textBindKey_mem (c : DSComponent) :
    text_prop_names.contains (pyLower (textBindKey c)) = true := by
  unfold textBindKey
  cases hf : c.props.find? (fun p => text_prop_names.contains (pyLower p.name)) with
  | none => decide
  | some p =>
    have hp := List.find?_some hf
    simpa using hp

theorem textBindKey_ne_variant (c : DSComponent) : textBindKey c ≠ "variant" := by
  intro h
  have hm := textBindKey_mem c
  rw [h] at hm
  revert hm
  decide

theorem textBindKey_ne_size (c : DSComponent) : textBindKey c ≠ "size" := by
  intro h
  have hm := textBindKey_mem c
  rw [h] at hm
  revert hm
  decide

/-- C7 (amended): for a text element with non-empty content, the text is bound
to the first prop in the *component's declaration order* whose lowercased name
is one of value/text/children/label/placeholder/title (synthetic `children`
when the component declares none), and that binding survives to the final
props mapping provided the input-field name heuristics do not fire. -/
theorem text_bound_to_first_declared_text_prop (e : FigmaElement) (c : DSComponent)
    (h1 : e.is_text = true) (h2 : e.text_content ≠ "")
    (h3 : (["input", "field", "textfield"].any fun kw => pyIn kw (pyLower e.name)) = false) :
    dictGet (_determine_props_mapping e c) (textBindKey c) = some e.text_content := by
  simp only [_determine_props_mapping]
  rw [apply_input_props_skip _ _ h3,
    apply_button_props_get _ _ (textBindKey_ne_variant c) (textBindKey_ne_size c),
    if_pos ⟨h1, h2⟩]
  cases hf : c.props.find? (fun p => text_prop_names.contains (pyLower p.name)) with
  | none =>
    simp only [textBindKey, hf]
    exact dictGet_dictSet_self _ _ _
  | some p =>
    simp only [textBindKey, hf]
    exact dictGet_dictSet_self _ _ _

/-- Witness for C7: the spec's own scenario — text `"Submit"` mapped to a
component declaring prop `"label"` ends up bound to `label`. -/
theorem text_bound_to_first_declared_text_prop_witness :
    dictGet (_determine_props_mapping
        { name := "Submit", type := "TEXT", is_text := true, text_content := "Submit" }
        { name := "Button", props := [{ name := "label" }] })
      (textBindKey { name := "Button", props := [{ name := "label" }] }) = some "Submit" :=
  text_bound_to_first_declared_text_prop _ _ (by decide) (by decide) (by decide)

/-- C7 counterexample: a component declaring props `title` then `value` (in
that order) receives the text on `title` — the first *declared* text prop —
not on `value`, the first name in the claim's priority list. -/
theorem text_prop_priority_counterexample :
    _determine_props_mapping
        { name := "Greeting", type := "TEXT", is_text := true, text_content := "Go" }
        { name := "Box", props := [{ name := "title" }, { name := "value" }] }
      = [("title", "Go")]
    ∧ dictGet (_determine_props_mapping
        { name := "Greeting", type := "TEXT", is_text := true, text_content := "Go" }
        { name := "Box", props := [{ name := "title" }, { name := "value" }] }) "value"
      = none := by
  constructor
  · decide
  · decide

/-- C8 (amended): a declared instance property is copied verbatim into the
props binding and survives to the final result for every key the later
name-based heuristics never assign (`variant`, `size`, `type`, `label`,
`placeholder`); extracted elements are never simultaneously text and
instance, hence `is_text = false`. -/
theorem instance_props_copied (e : FigmaElement) (c : DSComponent) (k v : String)
    (h1 : e.is_instance = true)
    (h2 : (e.component_properties.map Prod.fst).Nodup)
    (h3 : (k, v) ∈ e.component_properties)
    (h4 : e.is_text = false)
    (h5 : k ∉ (["variant", "size", "type", "label", "placeholder"] : List String)) :
    dictGet (_determine_props_mapping e c) k = some v := by
  simp only [List.mem_cons, not_or] at h5
  obtain ⟨hv, hs, ht, hl, hp, -⟩ := h5
  simp only [_determine_props_mapping]
  rw [apply_input_props_get _ _ ht hl hp, apply_button_props_get _ _ hv hs,
    if_neg (by simp [h4]), if_pos ⟨h1, List.ne_nil_of_mem h3⟩]
  exact dictGet_dictUpdate_mem _ [] k v h2 h3

/-- Witness for C8: a declared instance property `checked="true"` on a
button-named instance survives the heuristics untouched. -/
theorem instance_props_copied_witness :
    dictGet (_determine_props_mapping
        { name := "Primary Button", type := "INSTANCE", is_instance := true,
          component_properties := [("checked", "true")] }
        { name := "Button" }) "checked" = some "true" :=
  instance_props_copied _ _ _ _ (by decide) (by decide) (by decide) (by decide) (by decide)

/-- C8 counterexample: an instance declaring `variant="ghost"` but named
`"Primary Button"` ends up with `variant="primary"` — the name heuristic runs
*after* the verbatim copy and overwrites it, so the declared value does not
take priority. -/
theorem instance_prop_overwritten :
    dictGet (_determine_props_mapping
        { name := "Primary Button", type := "INSTANCE", is_instance := true,
          component_properties := [("variant", "ghost")] }
        { name := "Button" }) "variant" = some "primary"
    ∧ (some "primary" : Option String) ≠ some "ghost" := by
  constructor
  · decide
  · decide

/-! ### C2: the "Primary Button" scenario -/

/-- C2 counterexample: with the spec's scenario inputs (catalog = one
component `"Button"` with no props, element `"Primary Button"` of kind
`INSTANCE`, `minConfidence = 60`) the mapper produces *no* mapping: the score
is only 30 (name substring; the kind/category +40 never fires and the
`INSTANCE → "Component"` keyword is not in `"button"` anyway), so the element
lands in `unmapped_elements`. -/
theorem button_scenario_not_mapped :
    (_map_elements_to_components
        [{ name := "Primary Button", type := "INSTANCE", is_instance := true }]
        [{ name := "Button" }] 60).mappings = []
    ∧ (_map_elements_to_components
        [{ name := "Primary Button", type := "INSTANCE", is_instance := true }]
        [{ name := "Button" }] 60).unmapped_elements.map
          (fun u => (u.element.name, u.best_score)) = [("Primary Button", 0)] := by
  constructor
  · with_unfolding_all decide
  · with_unfolding_all decide

/-- C2 (amended): at `minConfidence = 60` the scenario yields no mapping;
lowering the floor to 30 yields a mapping for the element with confidence
exactly 30 whose props binding includes `variant = "primary"`. -/
theorem button_scenario_low_floor :
    (_map_elements_to_components
        [{ name := "Primary Button", type := "INSTANCE", is_instance := true }]
        [{ name := "Button" }] 60).mappings.length = 0
    ∧ (_map_elements_to_components
        [{ name := "Primary Button", type := "INSTANCE", is_instance := true }]
        [{ name := "Button" }] 30).mappings.map
          (fun m => (m.confidence, dictGet m.props_mapping "variant"))
      = [(30, some "primary")] := by
  constructor
  · with_unfolding_all decide
  · with_unfolding_all decide

/-! ### C4: spacing-pattern analysis -/

/-- C4 counterexample: two children with bounding boxes x = 0, width = 50 and
x = 60, width = 50 are classified as `horizontal_equal_spacing_60px` — the
code measures the difference of consecutive x positions, not the empty space
`next.x − (prev.x + prev.width)` (which would be 10). -/
theorem spacing_sixty_not_ten :
    _analyze_spacing_pattern
        [{ absoluteBoundingBox :=
            some { x := some 0, y := some 0, width := some 50, height := some 40 } },
         { absoluteBoundingBox :=
            some { x := some 60, y := some 0, width := some 50, height := some 40 } }]
      = some "horizontal_equal_spacing_60px"
    ∧ (some "horizontal_equal_spacing_60px" : Option String)
      ≠ some "horizontal_equal_spacing_10px" := by
  constructor
  · with_unfolding_all decide
  · decide

theorem sortAsc_pair (a b : ℚ) : sortAsc [a, b] = [min a b, max a b] := by
  by_cases h : a ≤ b
  · simp [sortAsc, insertAsc, h, min_eq_left h, max_eq_right h]
  · push_neg at h
    simp [sortAsc, insertAsc, not_le.mpr h, min_eq_right h.le, max_eq_left h.le]

theorem equalSpacingTag_pair (axis : String) (a b : ℚ) :
    equalSpacingTag axis [a, b] =
      some (axis ++ "_equal_spacing_" ++ toString (roundHalfEven (b - a)) ++ "px") := by
  simp [equalSpacingTag, pairDiffs]

/-- C4 (amended): the spacing analysis takes differences of consecutive
*sorted x coordinates* (`next.x − prev.x`), ignoring widths entirely, so any
two children with bounding boxes are classified as
`horizontal_equal_spacing_<Δx>px`; in particular the scenario children at
x = 0, width = 50 and x = 60, width = 50 yield
`horizontal_equal_spacing_60px`. -/
theorem spacing_two_children :
    (∀ b1 b2 : BBox,
      _analyze_spacing_pattern
          [{ absoluteBoundingBox := some b1 }, { absoluteBoundingBox := some b2 }] =
        some ("horizontal_equal_spacing_" ++
          toString (roundHalfEven
            (max (b1.x.getD 0) (b2.x.getD 0) - min (b1.x.getD 0) (b2.x.getD 0))) ++ "px"))
    ∧ _analyze_spacing_pattern
        [{ absoluteBoundingBox :=
            some { x := some 0, y := some 0, width := some 50, height := some 40 } },
         { absoluteBoundingBox :=
            some { x := some 60, y := some 0, width := some 50, height := some 40 } }] =
      some "horizontal_equal_spacing_60px" := by
  constructor
  · intro b1 b2
    simp only [_analyze_spacing_pattern, List.filterMap_cons, List.filterMap_nil,
      Option.map_some', List.length_cons, List.length_nil]
    norm_num
    rw [sortAsc_pair, equalSpacingTag_pair]
    rcases le_total (b1.x.getD 0) (b2.x.getD 0) with h | h
    · rw [max_eq_right h, min_eq_left h]
      rfl
    · rw [max_eq_left h, min_eq_right h]
      rfl
  · with_unfolding_all decide

/-! ### C9: color canonicalization -/

/-- C9 counterexample: the channel value 0.5 scales to 127.5, which the code
truncates to 127 while the claim's `round(channel*255)` gives 128, so the
produced string differs from the claim's formula. -/
theorem format_color_not_round :
    _format_color { r := some (1/2), g := some 0, b := some 0, a := some 1 }
        = "rgb(127, 0, 0)"
    ∧ formatColorSpecRound { r := some (1/2), g := some 0, b := some 0, a := some 1 }
        = "rgb(128, 0, 0)"
    ∧ _format_color { r := some (1/2), g := some 0, b := some 0, a := some 1 }
        ≠ formatColorSpecRound { r := some (1/2), g := some 0, b := some 0, a := some 1 } := by
  refine ⟨by with_unfolding_all decide, by with_unfolding_all decide, by with_unfolding_all decide⟩

/-- C9 (amended): the canonical color string is `rgb(r, g, b)` exactly when
alpha = 1 and `rgba(r, g, b, a)` otherwise, with each channel computed as
`int(channel*255)` — truncation toward zero, not rounding; the claim's two
concrete examples hold as stated. -/
theorem format_color_truncates :
    (∀ c : FigmaColor, _format_color c = formatColorSpecTrunc c)
    ∧ _format_color { r := some 1, g := some 0, b := some 0, a := some 1 }
        = "rgb(255, 0, 0)"
    ∧ _format_color { r := some 1, g := some 0, b := some 0, a := some (1/2) }
        = "rgba(255, 0, 0, 0.5)" := by
  refine ⟨fun c => rfl, by with_unfolding_all decide, by with_unfolding_all decide⟩

/-! ### Mapper lemmas -/

theorem length_partition (l : List (Mapping ⊕ UnmappedElement)) :
    (l.filterMap leftMapping).length + (l.filterMap rightUnmapped).length = l.length := by
  induction l with
  | nil => rfl
  | cons a t ih =>
    cases a <;> simp [leftMapping, rightUnmapped, List.filterMap_cons] <;> omega

theorem mem_filterMap_leftMapping {l : List (Mapping ⊕ UnmappedElement)} {m : Mapping} :
    m ∈ l.filterMap leftMapping ↔ Sum.inl m ∈ l := by
  rw [List.mem_filterMap]
  constructor
  · rintro ⟨a, ha, hfa⟩
    cases a with
    | inl m' =>
      simp only [leftMapping, Option.some_inj] at hfa
      rw [hfa] at ha
      exact ha
    | inr u => simp [leftMapping] at hfa
  · intro h
    exact ⟨Sum.inl m, h, rfl⟩

theorem mem_filterMap_rightUnmapped {l : List (Mapping ⊕ UnmappedElement)}
    {u : UnmappedElement} :
    u ∈ l.filterMap rightUnmapped ↔ Sum.inr u ∈ l := by
  rw [List.mem_filterMap]
  constructor
  · rintro ⟨a, ha, hfa⟩
    cases a with
    | inl m => simp [rightUnmapped] at hfa
    | inr u' =>
      simp only [rightUnmapped, Option.some_inj] at hfa
      rw [hfa] at ha
      exact ha
  · intro h
    exact ⟨Sum.inr u, h, rfl⟩

theorem process_element_inl {comps : List DSComponent} {mc : ℚ} {e : FigmaElement}
    {m : Mapping} (h : _process_element comps mc e = Sum.inl m) :
    m.figma_element = e ∧ mc ≤ m.confidence := by
  simp only [_process_element] at h
  split at h
  · split at h
    · rename_i hle
      injection h with h'
      rw [← h']
      exact ⟨rfl, hle⟩
    · exact absurd h (by simp)
  · exact absurd h (by simp)

theorem process_element_inr {comps : List DSComponent} {mc : ℚ} {e : FigmaElement}
    {u : UnmappedElement} (h : _process_element comps mc e = Sum.inr u) :
    u.element = e := by
  simp only [_process_element] at h
  split at h
  · split at h
    · exact absurd h (by simp)
    · injection h with h'
      rw [← h']
  · injection h with h'
    rw [← h']

/-- C6: every Mapping the mapper emits has confidence at least the
`min_confidence` floor passed in — a mapping is only created in the branch
guarded by `best_score >= min_confidence`. -/
theorem mapping_confidence_ge_floor (elems : List FigmaElement)
    (comps : List DSComponent) (mc : ℚ) :
    ∀ m ∈ (_map_elements_to_components elems comps mc).mappings, mc ≤ m.confidence := by
  intro m hm
  have hm' : m ∈ ((elems.filter isMappable).map (_process_element comps mc)).filterMap
      leftMapping := hm
  rcases List.mem_map.mp (mem_filterMap_leftMapping.mp hm') with ⟨e, _, hpe⟩
  exact (process_element_inl hpe).2

/-- Witness for C6: the "Primary Button"/"Button" run at floor 30 emits one
mapping, whose confidence 30 satisfies the floor. -/
theorem mapping_confidence_ge_floor_witness :
    (30 : ℚ) ≤ (_create_mapping
        { name := "Primary Button", type := "INSTANCE", is_instance := true }
        { name := "Button" } 30).confidence :=
  mapping_confidence_ge_floor
    [{ name := "Primary Button", type := "INSTANCE", is_instance := true }]
    [{ name := "Button" }] 30 _ (by with_unfolding_all decide)

/-- C5: the mapper partitions the mappable elements — the mappings and
unmapped lists together have exactly one entry per mappable element, and each
mappable element lands in exactly one of the two lists (never both, never
neither). -/
theorem mapper_partitions_mappable (elems : List FigmaElement)
    (comps : List DSComponent) (mc : ℚ) :
    ((_map_elements_to_components elems comps mc).mappings.length +
        (_map_elements_to_components elems comps mc).unmapped_elements.length =
      (elems.filter isMappable).length)
    ∧ ∀ e ∈ elems.filter isMappable,
        ((∃ m ∈ (_map_elements_to_components elems comps mc).mappings,
            m.figma_element = e) ∧
          ¬∃ u ∈ (_map_elements_to_components elems comps mc).unmapped_elements,
            u.element = e)
        ∨ ((¬∃ m ∈ (_map_elements_to_components elems comps mc).mappings,
            m.figma_element = e) ∧
          ∃ u ∈ (_map_elements_to_components elems comps mc).unmapped_elements,
            u.element = e) := by
  have hmap : (_map_elements_to_components elems comps mc).mappings =
      ((elems.filter isMappable).map (_process_element comps mc)).filterMap leftMapping := rfl
  have hun : (_map_elements_to_components elems comps mc).unmapped_elements =
      ((elems.filter isMappable).map (_process_element comps mc)).filterMap rightUnmapped :=
    rfl
  constructor
  · rw [hmap, hun, length_partition, List.length_map]
  · intro e he
    cases hpe : _process_element comps mc e with
    | inl m =>
      left
      refine ⟨⟨m, ?_, (process_element_inl hpe).1⟩, ?_⟩
      · rw [hmap]
        exact mem_filterMap_leftMapping.mpr (List.mem_map.mpr ⟨e, he, hpe⟩)
      · rintro ⟨u, hu, hue⟩
        rw [hun] at hu
        rcases List.mem_map.mp (mem_filterMap_rightUnmapped.mp hu) with ⟨e', he', hpe'⟩
        have he'e : e' = e := (process_element_inr hpe').symm.trans hue
        rw [he'e] at hpe'
        exact absurd (hpe'.symm.trans hpe) (by simp)
    | inr u =>
      right
      refine ⟨?_, ⟨u, ?_, process_element_inr hpe⟩⟩
      · rintro ⟨m, hm, hme⟩
        rw [hmap] at hm
        rcases List.mem_map.mp (mem_filterMap_leftMapping.mp hm) with ⟨e', he', hpe'⟩
        have he'e : e' = e := (process_element_inl hpe').1.symm.trans hme
        rw [he'e] at hpe'
        exact absurd (hpe'.symm.trans hpe) (by simp)
      · rw [hun]
        exact mem_filterMap_rightUnmapped.mpr (List.mem_map.mpr ⟨e, he, hpe⟩)

/-- Witness for C5: one mappable element against an empty catalog — the two
report lists together hold exactly that one element. -/
theorem mapper_partitions_mappable_witness :
    (_map_elements_to_components
        [{ name := "Primary Button", type := "INSTANCE", is_instance := true }]
        [] 0).mappings.length +
      (_map_elements_to_components
        [{ name := "Primary Button", type := "INSTANCE", is_instance := true }]
        [] 0).unmapped_elements.length =
      ([({ name := "Primary Button", type := "INSTANCE", is_instance := true } :
        FigmaElement)].filter isMappable).length :=
  (mapper_partitions_mappable _ _ _).1

/-! ### C10: configuration validation -/

/-- C10: any `min_confidence` outside [0, 100] is rejected with a
`ValueError` before extraction, scoring or mapping begins — the error result
does not depend on the element list or catalog — while for every in-range
floor the pipeline always returns a report, never an error, regardless of
whether any component matched. -/
theorem min_confidence_validation :
    (∀ (lk dk : String) (mc : ℚ) (elems : List FigmaElement)
        (comps : List DSComponent),
      validate_figma_file_key lk = true → validate_figma_file_key dk = true →
      (mc < 0 ∨ 100 < mc) →
      map_layout_to_components lk dk mc elems comps =
        Except.error (PyError.valueError "min_confidence must be in range 0-100"))
    ∧ (∀ (lk dk : String) (mc : ℚ) (elems : List FigmaElement)
        (comps : List DSComponent),
      validate_figma_file_key lk = true → validate_figma_file_key dk = true →
      0 ≤ mc → mc ≤ 100 →
      map_layout_to_components lk dk mc elems comps =
        Except.ok (_map_elements_to_components elems comps mc)) := by
  constructor
  · intro lk dk mc elems comps h1 h2 h3
    have hcond : ¬(0 ≤ mc ∧ mc ≤ 100) := by
      rintro ⟨ha, hb⟩
      rcases h3 with h | h <;> linarith
    simp [map_layout_to_components, h1, h2, hcond]
  · intro lk dk mc elems comps h1 h2 h3 h4
    simp [map_layout_to_components, h1, h2, h3, h4]

/-- Witness for C10: a well-formed file key passes validation, and a negative
floor (−5) is rejected with the ValueError before any mapping work (the
element list and catalog are irrelevant). -/
theorem min_confidence_validation_witness :
    validate_figma_file_key "d4qp6XOTZc3abUbq5UUDe7" = true
    ∧ map_layout_to_components "d4qp6XOTZc3abUbq5UUDe7" "KQc2jUV5CuCDqZ7hHTX0vc"
        (-5) [] [] =
      Except.error (PyError.valueError "min_confidence must be in range 0-100") :=
  ⟨by decide,
    min_confidence_validation.1 _ _ _ _ _ (by decide) (by decide)
      (Or.inl (by norm_num))⟩

end DesignAssistant
